import Mathlib

/-!
Verification of the forge-vscode extension core against its specification.

The definitions below are shallow embeddings of the TypeScript source:

* `resolveTerminalStrategy`   — app/services/terminalStrategyResolver.ts
* `LineRange`                 — domain/valueObjects/LineRange.ts
* `FilePath`                  — domain/valueObjects/FilePath.ts
* `FileReference`             — domain/models/FileReference.ts
* `ProcessService` functions  — services/processService.ts
* `CopyFileReferenceUseCase`  — app/useCases/CopyFileReferenceUseCase.ts

Throwing TypeScript code is embedded with `Except String`; the orchestrator's
side effects are embedded as a trace of `Action`s computed from an explicit
`Infra` state record mirroring the port interfaces.
-/

namespace Forge

/-- The five terminal strategies of domain/valueObjects/TerminalStrategy.ts. -/
inductive TerminalStrategy where
  | COPY_ONLY_MULTIPLE_TERMINALS
  | COPY_ONLY_MIXED_PROCESSES
  | REUSE_EXISTING_TERMINAL
  | CREATE_NEW_TERMINAL
  | PROMPT_FOR_INTERNAL_LAUNCH
deriving DecidableEq

/-- Embedding of `resolveTerminalStrategy` (terminalStrategyResolver.ts).
Terminal and process counts are lengths of lists, hence `Nat`. -/
def resolveTerminalStrategy (terminalCount processCount : Nat) : TerminalStrategy :=
  if terminalCount > 1 then
    TerminalStrategy.COPY_ONLY_MULTIPLE_TERMINALS
  else if terminalCount = 1 ∧ processCount > 0 then
    TerminalStrategy.COPY_ONLY_MIXED_PROCESSES
  else if terminalCount = 1 then
    TerminalStrategy.REUSE_EXISTING_TERMINAL
  else if processCount = 0 then
    TerminalStrategy.CREATE_NEW_TERMINAL
  else
    TerminalStrategy.PROMPT_FOR_INTERNAL_LAUNCH

/-- JavaScript white space (the set removed by `String.prototype.trim`):
WhiteSpace plus LineTerminator code points. -/
def isJsWhitespace (c : Char) : Bool :=
  let n := c.toNat
  n = 0x9 || n = 0xA || n = 0xB || n = 0xC || n = 0xD || n = 0x20 ||
  n = 0xA0 || n = 0x1680 || (0x2000 ≤ n && n ≤ 0x200A) ||
  n = 0x2028 || n = 0x2029 || n = 0x202F || n = 0x205F || n = 0x3000 || n = 0xFEFF

/-- Trim on the character list: drop leading then trailing white space. -/
def trimChars (l : List Char) : List Char :=
  ((l.dropWhile isJsWhitespace).reverse.dropWhile isJsWhitespace).reverse

/-- Embedding of JavaScript `String.prototype.trim`. -/
def jsTrim (s : String) : String :=
  String.mk (trimChars s.data)

/-- LineRange value object (LineRange.ts): 1-based inclusive pair.
TypeScript numbers may be negative, hence `Int`. -/
structure LineRange where
  start : Int
  «end» : Int
deriving DecidableEq

/-- Embedding of `LineRange.create` (LineRange.ts lines 35-46); `throw`
becomes `Except.error`. -/
def LineRange.create (start «end» : Int) : Except String LineRange :=
  if start < 1 then
    Except.error ("Invalid line range: start line must be >= 1, got " ++ toString start)
  else if «end» < 1 then
    Except.error ("Invalid line range: end line must be >= 1, got " ++ toString «end»)
  else if start > «end» then
    Except.error ("Invalid line range: start (" ++ toString start ++
      ") must be <= end (" ++ toString «end» ++ ")")
  else
    Except.ok { start := start, «end» := «end» }

/-- Embedding of `LineRange.fromZeroBased` (LineRange.ts lines 55-57). -/
def LineRange.fromZeroBased (start «end» : Int) : Except String LineRange :=
  LineRange.create (start + 1) («end» + 1)

/-- PathFormat enum (domain/valueObjects/PathFormat.ts). -/
inductive PathFormat where
  | Absolute
  | Relative
deriving DecidableEq

/-- FilePath value object (FilePath.ts). -/
structure FilePath where
  value : String
  format : PathFormat
deriving DecidableEq

/-- Embedding of `FilePath.validatePath` (FilePath.ts lines 55-59):
`!path` is string falsiness (empty string), `path.trim().length === 0`
is `jsTrim`. -/
def FilePath.validatePath (path : String) : Except String Unit :=
  if path = "" ∨ (jsTrim path).length = 0 then
    Except.error "File path cannot be empty or whitespace"
  else
    Except.ok ()

/-- Embedding of `FilePath.fromAbsolute`. -/
def FilePath.fromAbsolute (path : String) : Except String FilePath :=
  match FilePath.validatePath path with
  | Except.error e => Except.error e
  | Except.ok _ => Except.ok { value := path, format := PathFormat.Absolute }

/-- Embedding of `FilePath.fromRelative`. -/
def FilePath.fromRelative (path : String) : Except String FilePath :=
  match FilePath.validatePath path with
  | Except.error e => Except.error e
  | Except.ok _ => Except.ok { value := path, format := PathFormat.Relative }

/-- FileReference entity (domain/models/FileReference.ts). -/
structure FileReference where
  path : FilePath
  lineRange : Option LineRange
deriving DecidableEq

/-- Embedding of `FileReference.create`. -/
def FileReference.create (path : FilePath) (lineRange : Option LineRange := none) :
    FileReference :=
  { path := path, lineRange := lineRange }

/-- Embedding of `FileReference.toForgeFormat` (FileReference.ts lines 46-51). -/
def FileReference.toForgeFormat (r : FileReference) : String :=
  match r.lineRange with
  | some lr =>
      "@[" ++ r.path.value ++ ":" ++ toString lr.start ++ ":" ++ toString lr.«end» ++ "]"
  | none => "@[" ++ r.path.value ++ "]"

/-- The configured reference format, TypeScript union `'absolute' | 'relative'`. -/
inductive ReferenceFormat where
  | absolute
  | relative
deriving DecidableEq

/-- The configured terminal mode, TypeScript union `'once' | 'never'`. -/
inductive OpenTerminalMode where
  | once
  | never
deriving DecidableEq

/-- The `forge.*` settings store; `none` means the user has not set the key,
so the adapter default applies (VSCodeConfigAdapter.ts). -/
structure ForgeConfiguration where
  fileReferenceFormat : Option ReferenceFormat
  openTerminalMode : Option OpenTerminalMode
  autoPasteEnabled : Option Bool
  pasteDelay : Option Nat
deriving DecidableEq

/-- Embedding of `VSCodeConfigAdapter.getFileReferenceFormat` (default absolute). -/
def getFileReferenceFormat (c : ForgeConfiguration) : ReferenceFormat :=
  c.fileReferenceFormat.getD ReferenceFormat.absolute

/-- Embedding of `VSCodeConfigAdapter.getOpenTerminalMode` (default once). -/
def getOpenTerminalMode (c : ForgeConfiguration) : OpenTerminalMode :=
  c.openTerminalMode.getD OpenTerminalMode.once

/-- Embedding of `VSCodeConfigAdapter.getAutoPasteEnabled` (default true). -/
def getAutoPasteEnabled (c : ForgeConfiguration) : Bool :=
  c.autoPasteEnabled.getD true

/-- Embedding of `VSCodeConfigAdapter.getPasteDelay` (default 5000 ms). -/
def getPasteDelay (c : ForgeConfiguration) : Nat :=
  c.pasteDelay.getD 5000

/-- Editor selection as returned by `IEditorPort.getSelection` (0-based lines). -/
structure Selection where
  start : Int
  «end» : Int
  isEmpty : Bool
deriving DecidableEq

/-- State of the infrastructure ports seen by one `execute` invocation:
editor state, clipboard-independent terminal and process queries,
configuration, the id a fresh terminal would get, and the user's answer
to an information prompt. -/
structure Infra where
  hasActiveEditor : Bool
  activeFilePath : Option String
  selection : Option Selection
  forgeTerminals : List String
  forgeProcessCount : Nat
  config : ForgeConfiguration
  newTerminalId : String
  promptResponse : Option String
deriving DecidableEq

/-- Observable side effects of the use case, in execution order. -/
inductive Action where
  | clipboardWrite (text : String)
  | showWarning (message : String)
  | showStatusBar (message : String) (durationMs : Nat)
  | focusTerminal (terminalId : String)
  | showTerminal (terminalId : String)
  | sendText (terminalId : String) (text : String) (delayMs : Nat) (addNewLine : Bool)
  | createTerminal (terminalId : String)
  | showInfo (message : String) (actions : List String)
deriving DecidableEq

/-- True for the actions that touch a terminal or prompt for a launch. -/
def Action.isTerminalAction : Action → Bool
  | Action.focusTerminal _ => true
  | Action.showTerminal _ => true
  | Action.sendText _ _ _ _ => true
  | Action.createTerminal _ => true
  | _ => false

/-- Embedding of `CopyFileReferenceUseCase.createFileReference`
(CopyFileReferenceUseCase.ts lines 115-140). -/
def createFileReference (infra : Infra) (formatOverride : Option ReferenceFormat) :
    Except String (Option FileReference) :=
  if infra.hasActiveEditor = false then Except.ok none
  else
    match infra.activeFilePath with
    | none => Except.ok none
    | some filePath =>
      if (jsTrim filePath).length = 0 then Except.ok none
      else
        let format := formatOverride.getD (getFileReferenceFormat infra.config)
        match (match format with
               | ReferenceFormat.relative => FilePath.fromRelative filePath
               | ReferenceFormat.absolute => FilePath.fromAbsolute filePath) with
        | Except.error e => Except.error e
        | Except.ok filePathVO =>
          match infra.selection with
          | some sel =>
            if sel.isEmpty = false then
              match LineRange.fromZeroBased sel.start sel.«end» with
              | Except.error e => Except.error e
              | Except.ok lineRange =>
                  Except.ok (some (FileReference.create filePathVO (some lineRange)))
            else Except.ok (some (FileReference.create filePathVO none))
          | none => Except.ok (some (FileReference.create filePathVO none))

/-- Embedding of `CopyFileReferenceUseCase.copyToClipboardOnly`
(CopyFileReferenceUseCase.ts lines 96-109). -/
def copyToClipboardOnly (infra : Infra) : Except String (List Action) :=
  match createFileReference infra none with
  | Except.error e => Except.error e
  | Except.ok none => Except.ok [Action.showWarning "No active file to copy"]
  | Except.ok (some fileReference) =>
      Except.ok [Action.clipboardWrite fileReference.toForgeFormat,
                 Action.showStatusBar "File reference copied to clipboard" 3000]

/-- Embedding of `CopyFileReferenceUseCase.reuseTerminal`
(CopyFileReferenceUseCase.ts lines 187-204). -/
def reuseTerminal (infra : Infra) (terminalId forgeFormat : String) : List Action :=
  Action.focusTerminal terminalId :: Action.showTerminal terminalId ::
  (if getAutoPasteEnabled infra.config then
    [Action.sendText terminalId forgeFormat (getPasteDelay infra.config) false,
     Action.showStatusBar "File reference pasted to terminal" 5000]
  else
    [Action.showStatusBar "File reference copied to clipboard" 5000])

/-- Embedding of `CopyFileReferenceUseCase.createNewTerminal`
(CopyFileReferenceUseCase.ts lines 210-219). -/
def createNewTerminal (infra : Infra) (forgeFormat : String) : List Action :=
  [Action.createTerminal infra.newTerminalId,
   Action.showTerminal infra.newTerminalId,
   Action.sendText infra.newTerminalId "forge" 0 true,
   Action.sendText infra.newTerminalId forgeFormat (getPasteDelay infra.config) false]

/-- Embedding of `CopyFileReferenceUseCase.promptForLaunch`
(CopyFileReferenceUseCase.ts lines 225-243). -/
def promptForLaunch (infra : Infra) (forgeFormat : String) : List Action :=
  Action.showInfo "Launch Forge internally?" ["Yes", "No"] ::
  (if infra.promptResponse = some "Yes" then
    createNewTerminal infra forgeFormat
  else
    [Action.showStatusBar
      "File reference copied to clipboard. Paste it in your external forge terminal." 5000])

/-- Embedding of `CopyFileReferenceUseCase.executeStrategy`
(CopyFileReferenceUseCase.ts lines 146-181); `terminalIds[0]` is the head
of the list (present whenever the REUSE strategy is resolved). -/
def executeStrategy (infra : Infra) (strategy : TerminalStrategy)
    (forgeFormat : String) (terminalIds : List String) : List Action :=
  match strategy with
  | TerminalStrategy.COPY_ONLY_MULTIPLE_TERMINALS =>
      [Action.showStatusBar
        "File reference copied to clipboard. Paste it in any forge terminal when ready." 5000]
  | TerminalStrategy.COPY_ONLY_MIXED_PROCESSES =>
      [Action.showStatusBar
        "File reference copied to clipboard. Paste it in any forge terminal when ready." 5000]
  | TerminalStrategy.REUSE_EXISTING_TERMINAL =>
      reuseTerminal infra (terminalIds.headD "") forgeFormat
  | TerminalStrategy.CREATE_NEW_TERMINAL =>
      createNewTerminal infra forgeFormat
  | TerminalStrategy.PROMPT_FOR_INTERNAL_LAUNCH =>
      promptForLaunch infra forgeFormat

/-- Embedding of `CopyFileReferenceUseCase.execute`
(CopyFileReferenceUseCase.ts lines 55-90). -/
def execute (infra : Infra) (formatOverride : Option ReferenceFormat) :
    Except String (List Action) :=
  if getOpenTerminalMode infra.config = OpenTerminalMode.never then
    copyToClipboardOnly infra
  else
    match createFileReference infra formatOverride with
    | Except.error e => Except.error e
    | Except.ok none => Except.ok [Action.showWarning "No active file to copy"]
    | Except.ok (some fileReference) =>
        let forgeFormat := fileReference.toForgeFormat
        let terminalIds := infra.forgeTerminals
        let strategy := resolveTerminalStrategy terminalIds.length infra.forgeProcessCount
        Except.ok (Action.clipboardWrite forgeFormat ::
          executeStrategy infra strategy forgeFormat terminalIds)

/-- The same `Infra` with the configured file-reference format replaced. -/
def overrideFileReferenceFormat (infra : Infra) (fmt : ReferenceFormat) : Infra :=
  { infra with config := { infra.config with fileReferenceFormat := some fmt } }

/-- Outcome of `child_process.exec`: an error object or the stdout string. -/
inductive ExecOutcome where
  | execError (message : String)
  | success (stdout : String)
deriving DecidableEq

/-- Embedding of JavaScript `parseInt(s, 10)`: skip leading white space,
optional sign, longest digit prefix; `none` is NaN. -/
def parseInt10 (s : String) : Option Int :=
  let l := s.data.dropWhile isJsWhitespace
  let signed : Int × List Char :=
    match l with
    | '-' :: r => (-1, r)
    | '+' :: r => (1, r)
    | r => (1, r)
  let digits := signed.2.takeWhile Char.isDigit
  if digits.isEmpty then none
  else some (signed.1 *
    (digits.foldl (fun acc c => acc * 10 + (c.toNat - 48)) 0 : Nat))

/-- Embedding of `ProcessService.checkForgeProcessCount`
(processService.ts lines 152-165): on an exec error the promise resolves
to 0; otherwise `parseInt((stdout || "0").trim(), 10)`. `none` is NaN. -/
def checkForgeProcessCount (outcome : ExecOutcome) : Option Int :=
  match outcome with
  | ExecOutcome.execError _ => some 0
  | ExecOutcome.success stdout =>
      parseInt10 (jsTrim (if stdout = "" then "0" else stdout))

/-- JavaScript `x > 0` where `x` may be NaN (NaN comparisons are false). -/
def jsGtZero : Option Int → Bool
  | none => false
  | some n => n > 0

/-- Embedding of `ProcessService.checkExternalForgeProcess`
(processService.ts lines 133-146): on an exec error the promise resolves
to false; otherwise `count > 0`. -/
def checkExternalForgeProcess (outcome : ExecOutcome) : Bool :=
  match outcome with
  | ExecOutcome.execError _ => false
  | ExecOutcome.success stdout =>
      jsGtZero (parseInt10 (jsTrim (if stdout = "" then "0" else stdout)))

/-- Concrete state: mode once, relative format configured, auto-paste on,
one active file, no terminals, no external processes. -/
def routingWorld : Infra :=
  { hasActiveEditor := true
    activeFilePath := some "/a/b.ts"
    selection := none
    forgeTerminals := []
    forgeProcessCount := 0
    config :=
      { fileReferenceFormat := some ReferenceFormat.relative
        openTerminalMode := some OpenTerminalMode.once
        autoPasteEnabled := some true
        pasteDelay := some 100 }
    newTerminalId := "forge-1"
    promptResponse := none }

/-- Concrete state: like `routingWorld` but with auto-paste disabled. -/
def noAutoPasteWorld : Infra :=
  { hasActiveEditor := true
    activeFilePath := some "/a/b.ts"
    selection := none
    forgeTerminals := []
    forgeProcessCount := 0
    config :=
      { fileReferenceFormat := some ReferenceFormat.relative
        openTerminalMode := some OpenTerminalMode.once
        autoPasteEnabled := some false
        pasteDelay := some 250 }
    newTerminalId := "forge-1"
    promptResponse := none }

/-- Concrete state with openTerminalMode set to never. -/
def neverModeWorld : Infra :=
  { hasActiveEditor := true
    activeFilePath := some "/a/b.ts"
    selection := none
    forgeTerminals := ["t1"]
    forgeProcessCount := 2
    config :=
      { fileReferenceFormat := some ReferenceFormat.relative
        openTerminalMode := some OpenTerminalMode.never
        autoPasteEnabled := some true
        pasteDelay := some 100 }
    newTerminalId := "forge-1"
    promptResponse := none }

/-- Concrete state: exactly one forge terminal, no external processes,
paste delay left unset so the 5000 ms default applies. -/
def reuseWorld : Infra :=
  { hasActiveEditor := true
    activeFilePath := some "/a/b.ts"
    selection := none
    forgeTerminals := ["t1"]
    forgeProcessCount := 0
    config :=
      { fileReferenceFormat := some ReferenceFormat.absolute
        openTerminalMode := some OpenTerminalMode.once
        autoPasteEnabled := some true
        pasteDelay := none }
    newTerminalId := "forge-1"
    promptResponse := none }

/-! Helper lemmas about trimming and formatting. -/

theorem forall_mem_dropWhile_iff {α : Type} (p : α → Bool) (l : List α) :
    (∀ x ∈ l.dropWhile p, p x) ↔ (∀ x ∈ l, p x) := by
  induction l with
  | nil => simp
  | cons a t ih =>
    by_cases h : p a
    · simp [List.dropWhile_cons, h, ih]
    · simp [List.dropWhile_cons, h]

theorem jsTrim_length_zero_iff (s : String) :
    (jsTrim s).length = 0 ↔ ∀ c ∈ s.data, isJsWhitespace c := by
  have hlen : (jsTrim s).length = (trimChars s.data).length := rfl
  rw [hlen, List.length_eq_zero]
  unfold trimChars
  rw [List.reverse_eq_nil_iff, List.dropWhile_eq_nil_iff]
  simp only [List.mem_reverse]
  exact forall_mem_dropWhile_iff _ _

theorem ranged_ne_bare (v a b : String) :
    ("@[" ++ v ++ ":" ++ a ++ ":" ++ b ++ "]") ≠ ("@[" ++ v ++ "]") := by
  intro h
  have h2 := congrArg String.data h
  have e : ∀ (x y : String), (x ++ y).data = x.data ++ y.data := fun _ _ => rfl
  simp only [e] at h2
  simp only [List.append_assoc] at h2
  have h3 := List.append_cancel_left (List.append_cancel_left h2)
  simp at h3

/-! Claim theorems. -/

/-- C1: for every pair of counts, `resolveTerminalStrategy` follows the
five-row priority table with first match winning; in particular
`resolveTerminalStrategy 2 0` is COPY_ONLY_MULTIPLE_TERMINALS. -/
theorem resolveTerminalStrategy_priority_table (t p : Nat) :
    (t > 1 → resolveTerminalStrategy t p = TerminalStrategy.COPY_ONLY_MULTIPLE_TERMINALS) ∧
    (t = 1 ∧ p > 0 → resolveTerminalStrategy t p = TerminalStrategy.COPY_ONLY_MIXED_PROCESSES) ∧
    (t = 1 ∧ p = 0 → resolveTerminalStrategy t p = TerminalStrategy.REUSE_EXISTING_TERMINAL) ∧
    (t = 0 ∧ p = 0 → resolveTerminalStrategy t p = TerminalStrategy.CREATE_NEW_TERMINAL) ∧
    (t = 0 ∧ p > 0 → resolveTerminalStrategy t p = TerminalStrategy.PROMPT_FOR_INTERNAL_LAUNCH) ∧
    resolveTerminalStrategy 2 0 = TerminalStrategy.COPY_ONLY_MULTIPLE_TERMINALS := by
  refine ⟨?_, ?_, ?_, ?_, ?_, by decide⟩
  · intro h
    unfold resolveTerminalStrategy
    rw [if_pos h]
  · rintro ⟨h1, h2⟩
    unfold resolveTerminalStrategy
    rw [if_neg (by omega), if_pos ⟨h1, h2⟩]
  · rintro ⟨h1, h2⟩
    unfold resolveTerminalStrategy
    rw [if_neg (by omega), if_neg (by omega), if_pos h1]
  · rintro ⟨h1, h2⟩
    unfold resolveTerminalStrategy
    rw [if_neg (by omega), if_neg (by omega), if_neg (by omega), if_pos h2]
  · rintro ⟨h1, h2⟩
    unfold resolveTerminalStrategy
    rw [if_neg (by omega), if_neg (by omega), if_neg (by omega), if_neg (by omega)]

/-- C1 witness: the priority table applied at the concrete pair (1, 0). -/
theorem resolveTerminalStrategy_priority_table_witness :
    ((1 : Nat) = 1 ∧ (0 : Nat) = 0) ∧
    resolveTerminalStrategy 1 0 = TerminalStrategy.REUSE_EXISTING_TERMINAL :=
  ⟨⟨rfl, rfl⟩, (resolveTerminalStrategy_priority_table 1 0).2.2.1 ⟨rfl, rfl⟩⟩

/-- C4: `toForgeFormat` produces the bare form for a missing line range, the
three-part form for a present range (equal start and end for a single line),
and the ranged form is never the bare-path form. -/
theorem toForgeFormat_spec (fp : FilePath) (s e : Int) :
    (FileReference.create fp none).toForgeFormat = "@[" ++ fp.value ++ "]" ∧
    (1 ≤ s → s ≤ e →
      (FileReference.create fp (some { start := s, «end» := e })).toForgeFormat =
        "@[" ++ fp.value ++ ":" ++ toString s ++ ":" ++ toString e ++ "]") ∧
    (FileReference.create fp (some { start := s, «end» := e })).toForgeFormat ≠
      (FileReference.create fp none).toForgeFormat := by
  refine ⟨rfl, fun _ _ => rfl, ?_⟩
  have h1 :
      (FileReference.create fp (some { start := s, «end» := e })).toForgeFormat =
        "@[" ++ fp.value ++ ":" ++ toString s ++ ":" ++ toString e ++ "]" := rfl
  have h2 : (FileReference.create fp none).toForgeFormat = "@[" ++ fp.value ++ "]" := rfl
  rw [h1, h2]
  exact ranged_ne_bare fp.value (toString s) (toString e)

/-- C4 witness: a single selected line on `/a/b.ts` yields `@[/a/b.ts:5:5]`,
not the bare form. -/
theorem toForgeFormat_spec_witness :
    (1 : Int) ≤ 5 ∧
    (FileReference.create { value := "/a/b.ts", format := PathFormat.Absolute }
        (some { start := 5, «end» := 5 })).toForgeFormat = "@[/a/b.ts:5:5]" :=
  ⟨by decide,
    by
      have h := (toForgeFormat_spec
        { value := "/a/b.ts", format := PathFormat.Absolute } 5 5).2.1 (by decide) (by decide)
      simpa using h⟩

/-- C6: `LineRange.create` fails exactly when start < 1, end < 1 or
start > end, and succeeds with exactly the given endpoints otherwise. -/
theorem lineRange_create_spec (s e : Int) :
    ((∃ msg, LineRange.create s e = Except.error msg) ↔ (s < 1 ∨ e < 1 ∨ s > e)) ∧
    (1 ≤ s → s ≤ e → LineRange.create s e = Except.ok { start := s, «end» := e }) := by
  constructor
  · unfold LineRange.create
    split_ifs with h1 h2 h3 <;> simp <;> omega
  · intro hs hse
    unfold LineRange.create
    rw [if_neg (by omega), if_neg (by omega), if_neg (by omega)]

/-- C6 witness: creation at the concrete valid pair (2, 5). -/
theorem lineRange_create_spec_witness :
    ((1 : Int) ≤ 2 ∧ (2 : Int) ≤ 5) ∧
    LineRange.create 2 5 = Except.ok { start := 2, «end» := 5 } :=
  ⟨⟨by decide, by decide⟩, (lineRange_create_spec 2 5).2 (by decide) (by decide)⟩

/-- C7: for 0-based endpoints a ≤ b with a, b ≥ 0, `fromZeroBased` equals
`create (a+1) (b+1)` and produces start a+1, end b+1. -/
theorem lineRange_fromZeroBased_spec (a b : Int) :
    0 ≤ a → 0 ≤ b → a ≤ b →
    LineRange.fromZeroBased a b = LineRange.create (a + 1) (b + 1) ∧
    LineRange.fromZeroBased a b = Except.ok { start := a + 1, «end» := b + 1 } := by
  intro ha hb hab
  refine ⟨rfl, ?_⟩
  unfold LineRange.fromZeroBased LineRange.create
  rw [if_neg (by omega), if_neg (by omega), if_neg (by omega)]

/-- C7 witness: conversion at the concrete 0-based pair (0, 3). -/
theorem lineRange_fromZeroBased_spec_witness :
    ((0 : Int) ≤ 0 ∧ (0 : Int) ≤ 3 ∧ (0 : Int) ≤ 3) ∧
    LineRange.fromZeroBased 0 3 = Except.ok { start := 1, «end» := 4 } :=
  ⟨⟨by decide, by decide, by decide⟩,
    by
      have h := (lineRange_fromZeroBased_spec 0 3 (by decide) (by decide) (by decide)).2
      simpa using h⟩

/-- C9: when the process-count command fails, `checkForgeProcessCount`
resolves to 0 and `checkExternalForgeProcess` resolves to false; neither
propagates the failure. -/
theorem processCount_error_resolves_zero (e : String) :
    checkForgeProcessCount (ExecOutcome.execError e) = some 0 ∧
    checkExternalForgeProcess (ExecOutcome.execError e) = false :=
  ⟨rfl, rfl⟩

/-- C8: FilePath construction fails exactly for empty or whitespace-only
input, for both factory methods, and every constructed FilePath keeps the
validated, non-empty, non-whitespace-only value. -/
theorem filePath_construction_spec (s : String) :
    ((∃ msg, FilePath.fromAbsolute s = Except.error msg) ↔
      (s = "" ∨ ∀ c ∈ s.data, isJsWhitespace c)) ∧
    ((∃ msg, FilePath.fromRelative s = Except.error msg) ↔
      (s = "" ∨ ∀ c ∈ s.data, isJsWhitespace c)) ∧
    (∀ fp, (FilePath.fromAbsolute s = Except.ok fp ∨ FilePath.fromRelative s = Except.ok fp) →
      fp.value = s ∧ ¬(fp.value = "" ∨ ∀ c ∈ fp.value.data, isJsWhitespace c)) := by
  have hcond : (s = "" ∨ (jsTrim s).length = 0) ↔ (s = "" ∨ ∀ c ∈ s.data, isJsWhitespace c) :=
    or_congr Iff.rfl (jsTrim_length_zero_iff s)
  by_cases h : s = "" ∨ (jsTrim s).length = 0
  · have habs : FilePath.fromAbsolute s =
        Except.error "File path cannot be empty or whitespace" := by
      unfold FilePath.fromAbsolute FilePath.validatePath
      rw [if_pos h]
    have hrel : FilePath.fromRelative s =
        Except.error "File path cannot be empty or whitespace" := by
      unfold FilePath.fromRelative FilePath.validatePath
      rw [if_pos h]
    refine ⟨?_, ?_, ?_⟩
    · rw [habs]
      simp only [Except.error.injEq, exists_eq']
      exact iff_of_true trivial (hcond.mp h)
    · rw [hrel]
      simp only [Except.error.injEq, exists_eq']
      exact iff_of_true trivial (hcond.mp h)
    · intro fp hfp
      rw [habs, hrel] at hfp
      rcases hfp with h' | h' <;> exact absurd h' (by simp)
  · have habs : FilePath.fromAbsolute s =
        Except.ok { value := s, format := PathFormat.Absolute } := by
      unfold FilePath.fromAbsolute FilePath.validatePath
      rw [if_neg h]
    have hrel : FilePath.fromRelative s =
        Except.ok { value := s, format := PathFormat.Relative } := by
      unfold FilePath.fromRelative FilePath.validatePath
      rw [if_neg h]
    have hnot : ¬(s = "" ∨ ∀ c ∈ s.data, isJsWhitespace c) := fun hc => h (hcond.mpr hc)
    refine ⟨?_, ?_, ?_⟩
    · rw [habs]
      simp only [reduceCtorEq, exists_false]
      exact iff_of_false (fun hf => hf) hnot
    · rw [hrel]
      simp only [reduceCtorEq, exists_false]
      exact iff_of_false (fun hf => hf) hnot
    · intro fp hfp
      have hval : fp.value = s := by
        rcases hfp with h' | h'
        · have hh := Except.ok.inj (habs.symm.trans h')
          rw [← hh]
        · have hh := Except.ok.inj (hrel.symm.trans h')
          rw [← hh]
      refine ⟨hval, ?_⟩
      rw [hval]
      exact hnot

/-- C8 witness: the path `/a/b.ts` constructs successfully and is neither
empty nor whitespace-only. -/
theorem filePath_construction_spec_witness :
    ({ value := "/a/b.ts", format := PathFormat.Absolute } : FilePath).value = "/a/b.ts" ∧
    ¬(("/a/b.ts" : String) = "" ∨ ∀ c ∈ ("/a/b.ts" : String).data, isJsWhitespace c) := by
  have h := (filePath_construction_spec "/a/b.ts").2.2
    { value := "/a/b.ts", format := PathFormat.Absolute } (Or.inl rfl)
  simpa using h

/-- C10: when openTerminalMode is never, a format override has no effect:
execution with the override equals execution without it, and both run the
clipboard-only path that builds the reference from the configured format. -/
theorem execute_never_ignores_override (infra : Infra) (fmt : ReferenceFormat) :
    getOpenTerminalMode infra.config = OpenTerminalMode.never →
    execute infra (some fmt) = execute infra none ∧
    execute infra (some fmt) = copyToClipboardOnly infra := by
  intro h
  constructor <;> simp [execute, h]

/-- C10 witness: a concrete never-mode state where the absolute override
changes nothing. -/
theorem execute_never_ignores_override_witness :
    getOpenTerminalMode neverModeWorld.config = OpenTerminalMode.never ∧
    execute neverModeWorld (some ReferenceFormat.absolute) = execute neverModeWorld none :=
  ⟨rfl, (execute_never_ignores_override neverModeWorld ReferenceFormat.absolute rfl).1⟩

/-- C2 counterexample: with openTerminalMode once, an active file, no forge
terminals and no external processes, the forced-absolute command evaluates
the routing policy and performs terminal actions — it is not clipboard-only. -/
theorem copyOverride_counterexample :
    execute routingWorld (some ReferenceFormat.absolute) =
      Except.ok [Action.clipboardWrite "@[/a/b.ts]",
        Action.createTerminal "forge-1",
        Action.showTerminal "forge-1",
        Action.sendText "forge-1" "forge" 0 true,
        Action.sendText "forge-1" "@[/a/b.ts]" 100 false] ∧
    [Action.clipboardWrite "@[/a/b.ts]",
        Action.createTerminal "forge-1",
        Action.showTerminal "forge-1",
        Action.sendText "forge-1" "forge" 0 true,
        Action.sendText "forge-1" "@[/a/b.ts]" 100 false].any Action.isTerminalAction = true := by
  constructor
  · rfl
  · decide

/-- C2 (amended): a forced-format invocation runs the same workflow as the
plain command: under mode never it is clipboard-only with the configured
format (the override is ignored); otherwise it behaves exactly like the
plain command with the configured format replaced by the override,
terminal routing included. -/
theorem copyOverride_same_workflow (infra : Infra) (fmt : ReferenceFormat) :
    (getOpenTerminalMode infra.config = OpenTerminalMode.never →
      execute infra (some fmt) = copyToClipboardOnly infra) ∧
    (getOpenTerminalMode infra.config ≠ OpenTerminalMode.never →
      execute infra (some fmt) = execute (overrideFileReferenceFormat infra fmt) none) := by
  constructor
  · intro h
    simp [execute, h]
  · intro h
    have hm : getOpenTerminalMode (overrideFileReferenceFormat infra fmt).config =
        getOpenTerminalMode infra.config := rfl
    unfold execute
    rw [hm, if_neg h, if_neg h]
    rfl

/-- C2 witness: the equivalence applied at the concrete once-mode state. -/
theorem copyOverride_same_workflow_witness :
    execute routingWorld (some ReferenceFormat.absolute) =
      execute (overrideFileReferenceFormat routingWorld ReferenceFormat.absolute) none :=
  (copyOverride_same_workflow routingWorld ReferenceFormat.absolute).2 (by decide)

/-- C3 counterexample: with auto-paste disabled, a freshly created terminal
still receives the file reference after the configured paste delay. -/
theorem createNewTerminal_counterexample :
    getAutoPasteEnabled noAutoPasteWorld.config = false ∧
    execute noAutoPasteWorld none =
      Except.ok [Action.clipboardWrite "@[/a/b.ts]",
        Action.createTerminal "forge-1",
        Action.showTerminal "forge-1",
        Action.sendText "forge-1" "forge" 0 true,
        Action.sendText "forge-1" "@[/a/b.ts]" 250 false] := by
  constructor
  · rfl
  · rfl

/-- C3 (amended): when the strategy resolves to CREATE_NEW_TERMINAL the
orchestrator creates a terminal, shows it, launches the CLI submitted with
a trailing newline, and then always sends the reference after the
configured paste delay without a newline, regardless of the auto-paste
setting. -/
theorem createNewTerminal_always_pastes (infra : Infra) (p : String) :
    getOpenTerminalMode infra.config ≠ OpenTerminalMode.never →
    infra.hasActiveEditor = true →
    infra.activeFilePath = some p →
    (jsTrim p).length ≠ 0 →
    infra.selection = none →
    infra.forgeTerminals = [] →
    infra.forgeProcessCount = 0 →
    execute infra none =
      Except.ok [Action.clipboardWrite ("@[" ++ p ++ "]"),
        Action.createTerminal infra.newTerminalId,
        Action.showTerminal infra.newTerminalId,
        Action.sendText infra.newTerminalId "forge" 0 true,
        Action.sendText infra.newTerminalId ("@[" ++ p ++ "]")
          (getPasteDelay infra.config) false] := by
  intro hmode hed hpath hlen hsel hterm hproc
  have hne : ¬(p = "" ∨ (jsTrim p).length = 0) := by
    rintro (rfl | h2)
    · exact hlen rfl
    · exact hlen h2
  have hres : resolveTerminalStrategy 0 0 = TerminalStrategy.CREATE_NEW_TERMINAL := by decide
  cases hfmt : getFileReferenceFormat infra.config with
  | absolute =>
    have habs : FilePath.fromAbsolute p =
        Except.ok { value := p, format := PathFormat.Absolute } := by
      unfold FilePath.fromAbsolute FilePath.validatePath
      rw [if_neg hne]
    simp [execute, if_neg hmode, createFileReference, hed, hpath, hsel, hterm, hproc,
      if_neg hlen, hfmt, habs, hres, executeStrategy, createNewTerminal,
      FileReference.create, FileReference.toForgeFormat]
  | relative =>
    have hrel : FilePath.fromRelative p =
        Except.ok { value := p, format := PathFormat.Relative } := by
      unfold FilePath.fromRelative FilePath.validatePath
      rw [if_neg hne]
    simp [execute, if_neg hmode, createFileReference, hed, hpath, hsel, hterm, hproc,
      if_neg hlen, hfmt, hrel, hres, executeStrategy, createNewTerminal,
      FileReference.create, FileReference.toForgeFormat]

/-- C3 witness: the unconditional paste at the concrete state with
auto-paste disabled. -/
theorem createNewTerminal_always_pastes_witness :
    execute noAutoPasteWorld none =
      Except.ok [Action.clipboardWrite "@[/a/b.ts]",
        Action.createTerminal "forge-1",
        Action.showTerminal "forge-1",
        Action.sendText "forge-1" "forge" 0 true,
        Action.sendText "forge-1" "@[/a/b.ts]" (getPasteDelay noAutoPasteWorld.config) false] :=
  createNewTerminal_always_pastes noAutoPasteWorld "/a/b.ts"
    (by decide) rfl rfl (by decide) rfl rfl rfl

/-- C5: with exactly one forge terminal and no external processes the
orchestrator focuses and shows it; with auto-paste enabled it sends the
reference after the configured delay without a trailing newline, otherwise
it sends nothing to the terminal and only posts the clipboard notice; an
unset paste delay defaults to 5000 ms. -/
theorem reuseTerminal_spec (infra : Infra) (p t : String) :
    getOpenTerminalMode infra.config ≠ OpenTerminalMode.never →
    infra.hasActiveEditor = true →
    infra.activeFilePath = some p →
    (jsTrim p).length ≠ 0 →
    infra.selection = none →
    infra.forgeTerminals = [t] →
    infra.forgeProcessCount = 0 →
    (execute infra none =
      Except.ok (Action.clipboardWrite ("@[" ++ p ++ "]") ::
        Action.focusTerminal t :: Action.showTerminal t ::
        (if getAutoPasteEnabled infra.config then
          [Action.sendText t ("@[" ++ p ++ "]") (getPasteDelay infra.config) false,
           Action.showStatusBar "File reference pasted to terminal" 5000]
        else
          [Action.showStatusBar "File reference copied to clipboard" 5000]))) ∧
    (infra.config.pasteDelay = none → getPasteDelay infra.config = 5000) := by
  intro hmode hed hpath hlen hsel hterm hproc
  have hne : ¬(p = "" ∨ (jsTrim p).length = 0) := by
    rintro (rfl | h2)
    · exact hlen rfl
    · exact hlen h2
  have hres : resolveTerminalStrategy 1 0 = TerminalStrategy.REUSE_EXISTING_TERMINAL := by decide
  refine ⟨?_, ?_⟩
  · cases hfmt : getFileReferenceFormat infra.config with
    | absolute =>
      have habs : FilePath.fromAbsolute p =
          Except.ok { value := p, format := PathFormat.Absolute } := by
        unfold FilePath.fromAbsolute FilePath.validatePath
        rw [if_neg hne]
      simp [execute, if_neg hmode, createFileReference, hed, hpath, hsel, hterm, hproc,
        if_neg hlen, hfmt, habs, hres, executeStrategy, reuseTerminal,
        FileReference.create, FileReference.toForgeFormat]
    | relative =>
      have hrel : FilePath.fromRelative p =
          Except.ok { value := p, format := PathFormat.Relative } := by
        unfold FilePath.fromRelative FilePath.validatePath
        rw [if_neg hne]
      simp [execute, if_neg hmode, createFileReference, hed, hpath, hsel, hterm, hproc,
        if_neg hlen, hfmt, hrel, hres, executeStrategy, reuseTerminal,
        FileReference.create, FileReference.toForgeFormat]
  · intro hnone
    simp [getPasteDelay, hnone]

/-- C5 witness: the reuse behaviour at the concrete single-terminal state,
including the 5000 ms default delay for an unset pasteDelay. -/
theorem reuseTerminal_spec_witness :
    (execute reuseWorld none =
      Except.ok (Action.clipboardWrite "@[/a/b.ts]" ::
        Action.focusTerminal "t1" :: Action.showTerminal "t1" ::
        (if getAutoPasteEnabled reuseWorld.config then
          [Action.sendText "t1" "@[/a/b.ts]" (getPasteDelay reuseWorld.config) false,
           Action.showStatusBar "File reference pasted to terminal" 5000]
        else
          [Action.showStatusBar "File reference copied to clipboard" 5000]))) ∧
    getPasteDelay reuseWorld.config = 5000 :=
  ⟨(reuseTerminal_spec reuseWorld "/a/b.ts" "t1"
      (by decide) rfl rfl (by decide) rfl rfl rfl).1,
    (reuseTerminal_spec reuseWorld "/a/b.ts" "t1"
      (by decide) rfl rfl (by decide) rfl rfl rfl).2 rfl⟩

end Forge
